import Mathlib

/-!
Shallow embedding of the ascii-cam scripts: the intensity quantizers of
dual_window_ascii.py, realtime_ascii.py and simple_realtime_ascii.py, the
landmark gesture classifiers of dual_window_ascii.py and debug_gestures.py,
and the gesture debouncing loops of dual_window_ascii.py and
quick_gesture_test.py.

Python float values are modelled as `Option ℚ`: `none` stands for NaN, whose
ordered comparisons are all false as in IEEE 754; finite values are exact
rationals.  The Python truncation `int(...)` of the nonnegative quantities
involved is modelled by natural-number floor division; this is exact for
every pixel value 0..255, since the only near-integer double products of
`pixel / 255 * 9` (at pixel 85 and 170) lie within half an ulp of the
integer and round to it.
-/

/-- A Python float value: `none` models NaN, `some q` a finite value. -/
abbrev FVal : Type := Option ℚ

/-- The Python `<` on floats: false whenever either side is NaN. -/
def flt : FVal → FVal → Bool
  | some a, some b => decide (a < b)
  | _, _ => false

/-- The Python `>` on floats, i.e. `<` with the arguments swapped. -/
def fgt (a b : FVal) : Bool := flt b a

@[simp] lemma flt_none_left (b : FVal) : flt none b = false := rfl

@[simp] lemma flt_none_right (a : FVal) : flt a none = false := by
  cases a <;> rfl

@[simp] lemma flt_some_some (a b : ℚ) : flt (some a) (some b) = decide (a < b) := rfl

/-- A detected hand: 21 landmarks, of which only the y coordinates are read. -/
abbrev Hand : Type := Fin 21 → FVal

/-- A hand all of whose coordinates are finite numbers. -/
def finiteHand (f : Fin 21 → ℚ) : Hand := fun i => some (f i)

/-- The gesture strings assigned inside dual_window_ascii.py detect_gestures. -/
inductive GestureDW : Type
  | brightnessUp
  | brightnessDown
  | toggleHands
  | reset
deriving DecidableEq

/-- dual_window_ascii.py lines 94-141: the per-hand body of detect_gestures.
current_gesture is computed by four successive plain `if` statements, each
overwriting the previous assignment, so the last matching rule wins. -/
def current_gesture (h : Hand) : Option GestureDW :=
  let thumb_extended_up := flt (h 4) (h 3) && flt (h 4) (h 2)
  let other_fingers_down := fgt (h 8) (h 6) && fgt (h 12) (h 10) &&
    fgt (h 16) (h 14) && fgt (h 20) (h 18)
  let g1 : Option GestureDW :=
    if thumb_extended_up && other_fingers_down then some .brightnessUp else none
  let thumb_extended_down := fgt (h 4) (h 3) && fgt (h 4) (h 2)
  let g2 := if thumb_extended_down && other_fingers_down then some .brightnessDown else g1
  let peace_fingers := flt (h 8) (h 6) && flt (h 12) (h 10) &&
    fgt (h 16) (h 14) && fgt (h 20) (h 18)
  let g3 := if peace_fingers then some .toggleHands else g2
  let all_fingers_down := fgt (h 4) (h 3) && fgt (h 8) (h 6) && fgt (h 12) (h 10) &&
    fgt (h 16) (h 14) && fgt (h 20) (h 18)
  if all_fingers_down then some .reset else g3

/-- The Python list slice `l[-n:]`. -/
def lastN {α : Type} (n : Nat) (l : List α) : List α := l.drop (l.length - n)

/-- The smoothing test `all(g == recent[0] and g is not None for g in recent)`,
returning `recent[0]` when it holds (dual_window_ascii.py line 151,
quick_gesture_test.py line 105). -/
def stableOf {γ : Type} [DecidableEq γ] (recent : List (Option γ)) : Option γ :=
  match recent with
  | [] => none
  | r :: rest => if (r :: rest).all (fun g => decide (g = r) && g.isSome) then r else none

/-- dual_window_ascii.py lines 143-146: append to the buffer of capacity 3. -/
def dwBuffer (buffer : List (Option GestureDW)) (cur : Option GestureDW) :
    List (Option GestureDW) :=
  let buf := buffer ++ [cur]
  if buf.length > 3 then buf.drop 1 else buf

/-- dual_window_ascii.py lines 143-154: buffer update followed by the
two-frame stability check on the most recent entries. -/
def detect_gestures (buffer : List (Option GestureDW)) (cur : Option GestureDW) :
    List (Option GestureDW) × Option GestureDW :=
  (dwBuffer buffer cur,
   if (dwBuffer buffer cur).length ≥ 2 then stableOf (lastN 2 (dwBuffer buffer cur))
   else none)

/-- The per-finger boolean states computed by debug_gestures.py analyze_hand
(lines 16-52). -/
structure FingerStates where
  thumb_up : Bool
  thumb_down : Bool
  index_up : Bool
  middle_up : Bool
  ring_up : Bool
  pinky_up : Bool
  thumb_above_mcp : Bool
  thumb_below_mcp : Bool

/-- debug_gestures.py lines 16-52: the finger-state comparisons. -/
def analyze_hand (h : Hand) : FingerStates where
  thumb_up := flt (h 4) (h 3)
  thumb_down := fgt (h 4) (h 3)
  index_up := flt (h 8) (h 6)
  middle_up := flt (h 12) (h 10)
  ring_up := flt (h 16) (h 14)
  pinky_up := flt (h 20) (h 18)
  thumb_above_mcp := flt (h 4) (h 2)
  thumb_below_mcp := fgt (h 4) (h 2)

/-- The result strings of debug_gestures.py detect_gesture for a present hand. -/
inductive GestureDBG : Type
  | thumbsUp
  | thumbsDown
  | peace
  | fist
  | unknown
deriving DecidableEq

/-- debug_gestures.py lines 54-84: the rule chain with early returns,
so the first matching rule wins. -/
def detect_gesture (fs : FingerStates) : GestureDBG :=
  if fs.thumb_up && fs.thumb_above_mcp &&
      !fs.index_up && !fs.middle_up && !fs.ring_up && !fs.pinky_up then .thumbsUp
  else if fs.thumb_down && fs.thumb_below_mcp &&
      !fs.index_up && !fs.middle_up && !fs.ring_up && !fs.pinky_up then .thumbsDown
  else if fs.index_up && fs.middle_up && !fs.ring_up && !fs.pinky_up then .peace
  else if !fs.thumb_up && !fs.index_up && !fs.middle_up &&
      !fs.ring_up && !fs.pinky_up then .fist
  else .unknown

/-- The mutable session state of dual_window_ascii.py touched by the
gesture-control block of `run`. -/
structure DWRunState where
  buffer : List (Option GestureDW)
  lastGestureTime : ℚ
  brightness : ℚ
  contrast : ℚ
  showHands : Bool
deriving DecidableEq

/-- dual_window_ascii.py initial values: empty buffer, last_gesture_time = 0,
brightness = contrast = 1.0, show_hands = True. -/
def dwInit : DWRunState := ⟨[], 0, 1, 1, true⟩

/-- dual_window_ascii.py lines 237-253: the parameter update applied when a
gesture is confirmed (brightness steps of 0.2 clamped by min/max, reset to 1.0,
peace sign toggling the landmark overlay). -/
def applyGesture (st : DWRunState) : GestureDW → DWRunState
  | .brightnessUp => { st with brightness := min 2 (st.brightness + 1/5) }
  | .brightnessDown => { st with brightness := max (1/5) (st.brightness - 1/5) }
  | .toggleHands => { st with showHands := !st.showHands }
  | .reset => { st with brightness := 1, contrast := 1 }

/-- dual_window_ascii.py lines 230-253: one loop iteration's gesture control.
The buffer is only advanced once the 0.5 s cooldown has elapsed; a confirmed
gesture records the frame time as last_gesture_time and updates the settings. -/
def dwFrame (st : DWRunState) (now : ℚ) (cur : Option GestureDW) :
    DWRunState × Option GestureDW :=
  if now - st.lastGestureTime > 1/2 then
    match detect_gestures st.buffer cur with
    | (buf, some g) =>
        ({ applyGesture st g with buffer := buf, lastGestureTime := now }, some g)
    | (buf, none) => ({ st with buffer := buf }, none)
  else (st, none)

/-- The timestamps at which confirmed gestures fire over a stream of
(timestamp, per-frame symbol) frames of the dual_window_ascii.py loop. -/
def dwFires : DWRunState → List (ℚ × Option GestureDW) → List ℚ
  | _, [] => []
  | st, (t, c) :: rest =>
    match dwFrame st t c with
    | (st2, some _) => t :: dwFires st2 rest
    | (st2, none) => dwFires st2 rest

/-- The raw gesture strings of quick_gesture_test.py detect_gesture. -/
inductive QSym : Type
  | thumbsUp
  | thumbsDown
deriving DecidableEq

/-- quick_gesture_test.py lines 96-99: append to the buffer of capacity 5. -/
def qgtBuffer (buffer : List (Option QSym)) (cur : Option QSym) : List (Option QSym) :=
  let buf := buffer ++ [cur]
  if buf.length > 5 then buf.drop 1 else buf

/-- quick_gesture_test.py lines 96-106: buffer update followed by the
three-frame stability check on the most recent entries. -/
def qgtStep (buffer : List (Option QSym)) (cur : Option QSym) :
    List (Option QSym) × Option QSym :=
  (qgtBuffer buffer cur,
   if (qgtBuffer buffer cur).length ≥ 3 then stableOf (lastN 3 (qgtBuffer buffer cur))
   else none)

/-- The mutable session state of quick_gesture_test.py. -/
structure QGTState where
  buffer : List (Option QSym)
  lastGestureTime : ℚ
  brightness : ℚ
deriving DecidableEq

/-- quick_gesture_test.py initial values. -/
def qgtInit : QGTState := ⟨[], 0, 1⟩

/-- quick_gesture_test.py lines 96-117: one loop iteration; a stable gesture
fires when the 1.0 s cooldown has elapsed, recording the frame time and
stepping brightness by 0.2 within its clamps. -/
def qgtFrame (st : QGTState) (now : ℚ) (cur : Option QSym) :
    QGTState × Option (ℚ × QSym) :=
  match qgtStep st.buffer cur with
  | (buf, some g) =>
    if now - st.lastGestureTime > 1 then
      match g with
      | .thumbsUp =>
        (⟨buf, now, min 2 (st.brightness + 1/5)⟩, some (now, .thumbsUp))
      | .thumbsDown =>
        (⟨buf, now, max (1/5) (st.brightness - 1/5)⟩, some (now, .thumbsDown))
    else (⟨buf, st.lastGestureTime, st.brightness⟩, none)
  | (buf, none) => (⟨buf, st.lastGestureTime, st.brightness⟩, none)

/-- Confirmed events of the quick_gesture_test.py loop over a stream of
(timestamp, per-frame symbol) frames. -/
def qgtEvents : QGTState → List (ℚ × Option QSym) → List (ℚ × QSym)
  | _, [] => []
  | st, (t, c) :: rest =>
    match qgtFrame st t c with
    | (st2, some e) => e :: qgtEvents st2 rest
    | (st2, none) => qgtEvents st2 rest

/-- Final state of the quick_gesture_test.py loop after a stream of frames. -/
def qgtFinal : QGTState → List (ℚ × Option QSym) → QGTState
  | st, [] => st
  | st, (t, c) :: rest => qgtFinal (qgtFrame st t c).1 rest

/-- The 10-character ramp of dual_window_ascii.py line 14 and
simple_realtime_ascii.py line 14, darkest to lightest. -/
def ascii_chars : List Char := "@%#*+=-:. ".toList

/-- dual_window_ascii.py line 43 and simple_realtime_ascii.py line 37:
`int(pixel_value / 255 * (len(self.ascii_chars) - 1))`, the exact floor
of `p * 9 / 255`. -/
def ascii_index (p : ℕ) : ℕ := p * 9 / 255

/-- dual_window_ascii.py lines 41-44: the ramp lookup; `none` models the
IndexError an out-of-range index would raise. -/
def pixel_to_ascii (p : ℕ) : Option Char := ascii_chars[ascii_index p]?

/-- The 12-character set of realtime_ascii.py line 18. -/
def character_set : List Char := "@#$%?*+;:,. ".toList

/-- realtime_ascii.py line 45: `pixel_value // 22`. -/
def ascii_index12 (p : ℕ) : ℕ := p / 22

/-- The per-pixel glyph lookup of realtime_ascii.py convert_to_ascii
(line 45); `none` models the IndexError an out-of-range index would raise. -/
def ascii_char12 (p : ℕ) : Option Char := character_set[ascii_index12 p]?

section StepLemmas

lemma qgtFrame_nofire_eval {st : QGTState} {now : ℚ} {cur : Option QSym}
    {B : List (Option QSym)} (h : qgtStep st.buffer cur = (B, none)) :
    qgtFrame st now cur = (⟨B, st.lastGestureTime, st.brightness⟩, none) := by
  unfold qgtFrame
  rw [h]

lemma qgtFrame_skip_eval {st : QGTState} {now : ℚ} {cur : Option QSym}
    {B : List (Option QSym)} {g : QSym} (h : qgtStep st.buffer cur = (B, some g))
    (ht : ¬ (now - st.lastGestureTime > 1)) :
    qgtFrame st now cur = (⟨B, st.lastGestureTime, st.brightness⟩, none) := by
  unfold qgtFrame
  rw [h]
  exact if_neg ht

lemma qgtFrame_fire_up_eval {st : QGTState} {now : ℚ} {cur : Option QSym}
    {B : List (Option QSym)} (h : qgtStep st.buffer cur = (B, some QSym.thumbsUp))
    (ht : now - st.lastGestureTime > 1) :
    qgtFrame st now cur =
      (⟨B, now, min 2 (st.brightness + 1/5)⟩, some (now, QSym.thumbsUp)) := by
  unfold qgtFrame
  rw [h]
  exact if_pos ht

lemma qgtFrame_fire_down_eval {st : QGTState} {now : ℚ} {cur : Option QSym}
    {B : List (Option QSym)} (h : qgtStep st.buffer cur = (B, some QSym.thumbsDown))
    (ht : now - st.lastGestureTime > 1) :
    qgtFrame st now cur =
      (⟨B, now, max (1/5) (st.brightness - 1/5)⟩, some (now, QSym.thumbsDown)) := by
  unfold qgtFrame
  rw [h]
  exact if_pos ht

lemma qgtFrame_fire_exists {st : QGTState} {now : ℚ} {cur : Option QSym}
    {B : List (Option QSym)} {g : QSym} (h : qgtStep st.buffer cur = (B, some g))
    (ht : now - st.lastGestureTime > 1) :
    ∃ b : ℚ, qgtFrame st now cur = (⟨B, now, b⟩, some (now, g)) := by
  cases g
  · exact ⟨_, qgtFrame_fire_up_eval h ht⟩
  · exact ⟨_, qgtFrame_fire_down_eval h ht⟩

lemma qgtEvents_cons_fire {st : QGTState} {t : ℚ} {c : Option QSym}
    {rest : List (ℚ × Option QSym)} {st2 : QGTState} {e : ℚ × QSym}
    (h : qgtFrame st t c = (st2, some e)) :
    qgtEvents st ((t, c) :: rest) = e :: qgtEvents st2 rest := by
  rw [qgtEvents, h]

lemma qgtEvents_cons_nofire {st : QGTState} {t : ℚ} {c : Option QSym}
    {rest : List (ℚ × Option QSym)} {st2 : QGTState}
    (h : qgtFrame st t c = (st2, none)) :
    qgtEvents st ((t, c) :: rest) = qgtEvents st2 rest := by
  rw [qgtEvents, h]

lemma qgtFinal_cons {st : QGTState} {t : ℚ} {c : Option QSym}
    {rest : List (ℚ × Option QSym)} {st2 : QGTState} {og : Option (ℚ × QSym)}
    (h : qgtFrame st t c = (st2, og)) :
    qgtFinal st ((t, c) :: rest) = qgtFinal st2 rest := by
  rw [qgtFinal, h]

lemma dwFrame_nofire_eval {st : DWRunState} {now : ℚ} {cur : Option GestureDW}
    {B : List (Option GestureDW)} (h : detect_gestures st.buffer cur = (B, none))
    (ht : now - st.lastGestureTime > 1/2) :
    dwFrame st now cur = ({ st with buffer := B }, none) := by
  unfold dwFrame
  rw [if_pos ht, h]

lemma dwFrame_fire_eval {st : DWRunState} {now : ℚ} {cur : Option GestureDW}
    {B : List (Option GestureDW)} {g : GestureDW}
    (h : detect_gestures st.buffer cur = (B, some g))
    (ht : now - st.lastGestureTime > 1/2) :
    dwFrame st now cur =
      ({ applyGesture st g with buffer := B, lastGestureTime := now }, some g) := by
  unfold dwFrame
  rw [if_pos ht, h]

lemma dwFrame_skip_eval {st : DWRunState} {now : ℚ} {cur : Option GestureDW}
    (ht : ¬ (now - st.lastGestureTime > 1/2)) :
    dwFrame st now cur = (st, none) := by
  unfold dwFrame
  rw [if_neg ht]

lemma dwFires_cons_fire {st : DWRunState} {t : ℚ} {c : Option GestureDW}
    {rest : List (ℚ × Option GestureDW)} {st2 : DWRunState} {g : GestureDW}
    (h : dwFrame st t c = (st2, some g)) :
    dwFires st ((t, c) :: rest) = t :: dwFires st2 rest := by
  rw [dwFires, h]

lemma dwFires_cons_nofire {st : DWRunState} {t : ℚ} {c : Option GestureDW}
    {rest : List (ℚ × Option GestureDW)} {st2 : DWRunState}
    (h : dwFrame st t c = (st2, none)) :
    dwFires st ((t, c) :: rest) = dwFires st2 rest := by
  rw [dwFires, h]

lemma dwFrame_fire_inv {st : DWRunState} {t : ℚ} {c : Option GestureDW}
    {st2 : DWRunState} {g : GestureDW} (h : dwFrame st t c = (st2, some g)) :
    st.lastGestureTime + 1/2 < t ∧ st2.lastGestureTime = t := by
  by_cases hc : t - st.lastGestureTime > 1/2
  · rcases hd : detect_gestures st.buffer c with ⟨B, og⟩
    cases og with
    | none =>
      rw [dwFrame_nofire_eval hd hc] at h
      injection h with h1 h2
      exact Option.noConfusion h2
    | some g2 =>
      rw [dwFrame_fire_eval hd hc] at h
      injection h with h1 h2
      subst h1
      exact ⟨by linarith, rfl⟩
  · rw [dwFrame_skip_eval hc] at h
    injection h with h1 h2
    exact Option.noConfusion h2

lemma dwFrame_nofire_inv {st : DWRunState} {t : ℚ} {c : Option GestureDW}
    {st2 : DWRunState} (h : dwFrame st t c = (st2, none)) :
    st2.lastGestureTime = st.lastGestureTime := by
  by_cases hc : t - st.lastGestureTime > 1/2
  · rcases hd : detect_gestures st.buffer c with ⟨B, og⟩
    cases og with
    | none =>
      rw [dwFrame_nofire_eval hd hc] at h
      injection h with h1 h2
      subst h1
      rfl
    | some g2 =>
      rw [dwFrame_fire_eval hd hc] at h
      injection h with h1 h2
      exact Option.noConfusion h2
  · rw [dwFrame_skip_eval hc] at h
    injection h with h1 h2
    subst h1
    rfl

lemma lastN_length {α : Type} {n : ℕ} {l : List α} (h : n ≤ l.length) :
    (lastN n l).length = n := by
  simp only [lastN, List.length_drop]
  omega

lemma stableOf_eq_some {γ : Type} [DecidableEq γ] {l : List (Option γ)} {g : γ}
    (h : stableOf l = some g) : ∀ x ∈ l, x = some g := by
  match l with
  | [] => simp [stableOf] at h
  | r :: rest =>
    rw [stableOf] at h
    split at h
    · next hall =>
      subst h
      intro x hx
      have hx2 := List.all_eq_true.mp hall x hx
      simp only [Bool.and_eq_true, decide_eq_true_eq] at hx2
      exact hx2.1
    · exact absurd h (by simp)

end StepLemmas

section Invariants

lemma brightness_invariant (evs : List GestureDW) :
    ∀ st : DWRunState, 1/5 ≤ st.brightness → st.brightness ≤ 2 →
      1/5 ≤ (evs.foldl applyGesture st).brightness ∧
        (evs.foldl applyGesture st).brightness ≤ 2 := by
  induction evs with
  | nil =>
    intro st h1 h2
    exact ⟨h1, h2⟩
  | cons e rest ih =>
    intro st h1 h2
    rw [List.foldl_cons]
    cases e with
    | brightnessUp =>
      exact ih _ (le_min (by norm_num) (by linarith)) (min_le_left _ _)
    | brightnessDown =>
      exact ih _ (le_max_left _ _) (max_le (by norm_num) (by linarith))
    | toggleHands => exact ih _ h1 h2
    | reset => exact ih _ (by norm_num [applyGesture]) (by norm_num [applyGesture])

lemma dwFires_spec (stream : List (ℚ × Option GestureDW)) :
    ∀ st : DWRunState,
      (∀ u ∈ dwFires st stream, st.lastGestureTime + 1/2 < u) ∧
        (dwFires st stream).Pairwise (fun a b => a + 1/2 < b) := by
  induction stream with
  | nil =>
    intro st
    simp [dwFires]
  | cons p rest ih =>
    intro st
    obtain ⟨t, c⟩ := p
    rcases hf : dwFrame st t c with ⟨st2, og⟩
    cases og with
    | none =>
      rw [dwFires_cons_nofire hf]
      have hlast := dwFrame_nofire_inv hf
      refine ⟨fun u hu => ?_, (ih st2).2⟩
      have := (ih st2).1 u hu
      rwa [hlast] at this
    | some g =>
      rw [dwFires_cons_fire hf]
      obtain ⟨hgap, hlast⟩ := dwFrame_fire_inv hf
      constructor
      · intro u hu
        rcases List.mem_cons.mp hu with rfl | hu2
        · exact hgap
        · have := (ih st2).1 u hu2
          rw [hlast] at this
          linarith
      · refine List.Pairwise.cons (fun u hu => ?_) (ih st2).2
        have := (ih st2).1 u hu
        rwa [hlast] at this

end Invariants

/-- A concrete thumbs-down hand: thumb tip y = 9 below IP y = 7 below MCP y = 5
(y grows downward), the four other fingertips (y = 8) below their PIPs (y = 4). -/
def cThumbsDownF : Fin 21 → ℚ := fun i =>
  if i.val = 4 then 9 else if i.val = 3 then 7 else if i.val = 2 then 5
  else if i.val = 8 ∨ i.val = 12 ∨ i.val = 16 ∨ i.val = 20 then 8
  else if i.val = 6 ∨ i.val = 10 ∨ i.val = 14 ∨ i.val = 18 then 4
  else 0

/-- A concrete thumbs-up hand: thumb tip y = 1 above IP y = 2 above MCP y = 3,
the four other fingertips (y = 9) below their PIPs (y = 5). -/
def cThumbsUpF : Fin 21 → ℚ := fun i =>
  if i.val = 4 then 1 else if i.val = 3 then 2 else if i.val = 2 then 3
  else if i.val = 8 ∨ i.val = 12 ∨ i.val = 16 ∨ i.val = 20 then 9
  else if i.val = 6 ∨ i.val = 10 ∨ i.val = 14 ∨ i.val = 18 then 5
  else 0

/-- A hand all of whose coordinates are NaN. -/
def nanHand : Hand := fun _ => none

/-- C1 counterexample: the spec formula floor(128 / 256 * 10) = 5 predicts
quantize(128) = ramp[5] = the equals sign, but the code computes
int(128 / 255 * 9) = 4 and returns the plus sign. -/
theorem quantize_128_not_eq_sign : pixel_to_ascii 128 ≠ some '=' := by decide

/-- C1 (amended): the quantizer computes index int(p / 255 * (M-1)) for the
10-character ramp and p // 22 for the 12-character set; the endpoints map to
the first and last ramp characters, and 128 maps to ramp[4], the plus sign. -/
theorem quantize_boundary_values :
    pixel_to_ascii 0 = some '@' ∧ pixel_to_ascii 255 = some ' ' ∧
    pixel_to_ascii 128 = some '+' ∧ ascii_index 128 = 4 ∧
    ascii_char12 0 = some '@' ∧ ascii_char12 255 = some ' ' := by decide

/-- C8: both ramp-index functions are monotone in the pixel value. -/
theorem quantizer_monotone (p1 p2 : ℕ) (h : p1 < p2) :
    ascii_index p1 ≤ ascii_index p2 ∧ ascii_index12 p1 ≤ ascii_index12 p2 := by
  unfold ascii_index ascii_index12
  omega

/-- Witness for C8 at pixels 10 and 200. -/
theorem quantizer_monotone_witness :
    10 < 200 ∧ ascii_index 10 ≤ ascii_index 200 ∧
      ascii_index12 10 ≤ ascii_index12 200 :=
  ⟨by decide, (quantizer_monotone 10 200 (by decide)).1,
    (quantizer_monotone 10 200 (by decide)).2⟩

/-- C10: for every pixel value up to 255 the ramp indices int(p / 255 * 9) and
p // 22 stay below the ramp lengths 10 and 12, so the unguarded list indexing
succeeds, and 255 // 22 = 11 hits exactly the last character. -/
theorem ramp_index_in_bounds (p : ℕ) (hp : p ≤ 255) :
    ascii_index p < 10 ∧ ascii_index12 p < 12 ∧
      (∃ c, pixel_to_ascii p = some c) ∧ (∃ c, ascii_char12 p = some c) ∧
      ascii_index12 255 = 11 := by
  have h1 : ascii_index p < 10 := by unfold ascii_index; omega
  have h2 : ascii_index12 p < 12 := by unfold ascii_index12; omega
  refine ⟨h1, h2, ⟨_, List.getElem?_eq_getElem ?_⟩, ⟨_, List.getElem?_eq_getElem ?_⟩,
    by decide⟩
  · rw [show ascii_chars.length = 10 from rfl]
    exact h1
  · rw [show character_set.length = 12 from rfl]
    exact h2

/-- Witness for C10 at pixel 128. -/
theorem ramp_index_in_bounds_witness :
    128 ≤ 255 ∧ ascii_index 128 < 10 ∧ ascii_index12 128 < 12 :=
  ⟨by decide, (ramp_index_in_bounds 128 (by decide)).1,
    (ramp_index_in_bounds 128 (by decide)).2.1⟩

/-- C2 (code bug): on a hand whose thumb is extended down (tip y = 9 greater
than IP y = 7 and MCP y = 5) with the four other digits not extended up,
dual_window_ascii.py assigns brightness_down but then overwrites it, because
the same hand satisfies the later all_fingers_down test, so detect_gestures
classifies the hand as reset; debug_gestures.py, whose rules return on first
match, classifies the same hand as ThumbsDown. -/
theorem thumbs_down_hand_resets :
    cThumbsDownF 3 < cThumbsDownF 4 ∧ cThumbsDownF 2 < cThumbsDownF 4 ∧
    cThumbsDownF 6 < cThumbsDownF 8 ∧ cThumbsDownF 10 < cThumbsDownF 12 ∧
    cThumbsDownF 14 < cThumbsDownF 16 ∧ cThumbsDownF 18 < cThumbsDownF 20 ∧
    current_gesture (finiteHand cThumbsDownF) = some GestureDW.reset ∧
    detect_gesture (analyze_hand (finiteHand cThumbsDownF)) = GestureDBG.thumbsDown := by
  decide

/-- C7: any hand with thumb tip y below thumb IP y below thumb MCP y and each
other fingertip y above (greater than) its PIP y classifies as ThumbsUp in
both dual_window_ascii.py (brightness_up) and debug_gestures.py. -/
theorem thumbs_up_rule (f : Fin 21 → ℚ)
    (h1 : f 4 < f 3) (h2 : f 3 < f 2) (h3 : f 6 < f 8) (h4 : f 10 < f 12)
    (h5 : f 14 < f 16) (h6 : f 18 < f 20) :
    current_gesture (finiteHand f) = some GestureDW.brightnessUp ∧
      detect_gesture (analyze_hand (finiteHand f)) = GestureDBG.thumbsUp := by
  have h7 : f 4 < f 2 := h1.trans h2
  constructor
  · simp [current_gesture, finiteHand, fgt, h1, h2, h3, h4, h5, h6, h7,
      h1.asymm, h3.asymm, h4.asymm, h5.asymm, h6.asymm]
  · simp [detect_gesture, analyze_hand, finiteHand, fgt, h1, h2, h3, h4, h5, h6, h7,
      h1.asymm, h3.asymm, h4.asymm, h5.asymm, h6.asymm]

/-- Witness for C7 at the concrete thumbs-up hand. -/
theorem thumbs_up_rule_witness :
    cThumbsUpF 4 < cThumbsUpF 3 ∧ cThumbsUpF 3 < cThumbsUpF 2 ∧
    cThumbsUpF 6 < cThumbsUpF 8 ∧ cThumbsUpF 10 < cThumbsUpF 12 ∧
    cThumbsUpF 14 < cThumbsUpF 16 ∧ cThumbsUpF 18 < cThumbsUpF 20 ∧
    current_gesture (finiteHand cThumbsUpF) = some GestureDW.brightnessUp ∧
    detect_gesture (analyze_hand (finiteHand cThumbsUpF)) = GestureDBG.thumbsUp := by
  refine ⟨by decide, by decide, by decide, by decide, by decide, by decide, ?_, ?_⟩
  · exact (thumbs_up_rule cThumbsUpF (by decide) (by decide) (by decide) (by decide)
      (by decide) (by decide)).1
  · exact (thumbs_up_rule cThumbsUpF (by decide) (by decide) (by decide) (by decide)
      (by decide) (by decide)).2

/-- C9 counterexample: on the all-NaN hand every comparison is false, so
debug_gestures.py detect_gesture returns the Fist symbol, a normal gesture
result, instead of failing with any InvalidInput condition. -/
theorem nan_hand_returns_fist :
    detect_gesture (analyze_hand nanHand) = GestureDBG.fist := by decide

/-- C9 (amended): the classifiers contain no validation and cannot fail; on a
hand whose coordinates are all NaN every comparison is false, so
debug_gestures.py classifies the hand as Fist and dual_window_ascii.py leaves
current_gesture at None; no error condition is signalled to the caller. -/
theorem nan_hand_classified (h : Hand) (hn : ∀ i, h i = none) :
    detect_gesture (analyze_hand h) = GestureDBG.fist ∧ current_gesture h = none := by
  constructor
  · simp [detect_gesture, analyze_hand, fgt, hn]
  · simp [current_gesture, fgt, hn]

/-- Witness for C9 at the all-NaN hand. -/
theorem nan_hand_classified_witness :
    detect_gesture (analyze_hand nanHand) = GestureDBG.fist ∧
      current_gesture nanHand = none :=
  nan_hand_classified nanHand (fun _ => rfl)

/-- C3: starting from brightness 1.0, any sequence of confirmed gesture events
(brightness up or down, reset, peace toggle) leaves the brightness within its
clamped range 0.2 to 2.0. -/
theorem brightness_clamped (evs : List GestureDW) :
    1/5 ≤ (evs.foldl applyGesture dwInit).brightness ∧
      (evs.foldl applyGesture dwInit).brightness ≤ 2 :=
  brightness_invariant evs dwInit (by norm_num [dwInit]) (by norm_num [dwInit])

/-- C4: over any input stream of timestamped per-frame symbols, the timestamps
of confirmed gestures of the dual_window_ascii.py loop are separated pairwise
by strictly more than the 0.5 s cooldown. -/
theorem cooldown_separates_fires (stream : List (ℚ × Option GestureDW)) :
    (dwFires dwInit stream).Pairwise (fun a b => a + 1/2 < b) :=
  (dwFires_spec stream dwInit).2

/-- C5: from a fresh state, feeding the required number of consecutive
identical non-None symbols (two for dual_window_ascii.py, three for
quick_gesture_test.py) at wall-clock times with frame intervals below the
cooldown produces exactly one confirmed event, fired at the last frame. -/
theorem debounce_single_fire (g : GestureDW) (s : QSym) (t0 t1 u0 u1 u2 : ℚ)
    (ht0 : 1/2 < t0) (ht01 : t0 ≤ t1) (htint : t1 - t0 < 1/2)
    (hu01 : u0 ≤ u1) (hu12 : u1 ≤ u2) (huint1 : u1 - u0 < 1) (huint2 : u2 - u1 < 1)
    (hu2 : 1 < u2) :
    dwFires dwInit [(t0, some g), (t1, some g)] = [t1] ∧
      qgtEvents qgtInit [(u0, some s), (u1, some s), (u2, some s)] = [(u2, s)] := by
  constructor
  · have ht0' : t0 - dwInit.lastGestureTime > 1/2 := by
      simp only [dwInit, sub_zero]
      linarith
    have h1 : dwFrame dwInit t0 (some g) = ({ dwInit with buffer := [some g] }, none) :=
      dwFrame_nofire_eval rfl ht0'
    have hd2 : detect_gestures [some g] (some g) = ([some g, some g], some g) := by
      simp [detect_gestures, dwBuffer, stableOf, lastN]
    have ht1' : t1 - ({ dwInit with buffer := [some g] } : DWRunState).lastGestureTime
        > 1/2 := by
      simp only [dwInit, sub_zero]
      linarith
    rw [dwFires_cons_nofire h1, dwFires_cons_fire (dwFrame_fire_eval hd2 ht1')]
    rfl
  · have h1 : qgtFrame qgtInit u0 (some s) = (⟨[some s], 0, 1⟩, none) :=
      qgtFrame_nofire_eval rfl
    have h2 : qgtFrame ⟨[some s], 0, 1⟩ u1 (some s) = (⟨[some s, some s], 0, 1⟩, none) :=
      qgtFrame_nofire_eval rfl
    have hs3 : qgtStep [some s, some s] (some s) = ([some s, some s, some s], some s) := by
      simp [qgtStep, qgtBuffer, stableOf, lastN]
    have ht2 : u2 - (⟨[some s, some s], 0, 1⟩ : QGTState).lastGestureTime > 1 := by
      simp only [sub_zero]
      linarith
    obtain ⟨b, h3⟩ := qgtFrame_fire_exists hs3 ht2
    rw [qgtEvents_cons_nofire h1, qgtEvents_cons_nofire h2, qgtEvents_cons_fire h3]
    rfl

/-- Witness for C5 at times 1, 5/4 for dual_window_ascii.py and 2, 5/2, 3 for
quick_gesture_test.py, with the reset and thumbs-up symbols. -/
theorem debounce_single_fire_witness :
    (1:ℚ)/2 < 1 ∧ (1:ℚ) ≤ 5/4 ∧ (5:ℚ)/4 - 1 < 1/2 ∧ (2:ℚ) ≤ 5/2 ∧ (5:ℚ)/2 ≤ 3 ∧
    (5:ℚ)/2 - 2 < 1 ∧ (3:ℚ) - 5/2 < 1 ∧ (1:ℚ) < 3 ∧
    dwFires dwInit [(1, some GestureDW.reset), (5/4, some GestureDW.reset)] = [5/4] ∧
    qgtEvents qgtInit
      [(2, some QSym.thumbsUp), (5/2, some QSym.thumbsUp), (3, some QSym.thumbsUp)] =
      [(3, QSym.thumbsUp)] := by
  have h := debounce_single_fire GestureDW.reset QSym.thumbsUp 1 (5/4) 2 (5/2) 3
    (by norm_num) (by norm_num) (by norm_num) (by norm_num) (by norm_num)
    (by norm_num) (by norm_num) (by norm_num)
  exact ⟨by norm_num, by norm_num, by norm_num, by norm_num, by norm_num, by norm_num,
    by norm_num, by norm_num, h.1, h.2⟩

/-- C6 (amended): whenever a smoothing check confirms a gesture, the most
recent C buffer entries, not the whole buffer, all equal that non-None symbol:
the last three of the capacity-5 buffer in quick_gesture_test.py and the last
two of the capacity-3 buffer in dual_window_ascii.py. -/
theorem debounce_stable_window :
    (∀ (buffer : List (Option QSym)) (cur : Option QSym) (g : QSym),
      (qgtStep buffer cur).2 = some g →
        lastN 3 (qgtStep buffer cur).1 = [some g, some g, some g]) ∧
    (∀ (buffer : List (Option GestureDW)) (cur : Option GestureDW) (g : GestureDW),
      (detect_gestures buffer cur).2 = some g →
        lastN 2 (detect_gestures buffer cur).1 = [some g, some g]) := by
  constructor
  · intro buffer cur g h
    have h' : (if (qgtBuffer buffer cur).length ≥ 3 then
        stableOf (lastN 3 (qgtBuffer buffer cur)) else none) = some g := h
    show lastN 3 (qgtBuffer buffer cur) = [some g, some g, some g]
    split at h'
    · next hlen =>
      have h3 : (lastN 3 (qgtBuffer buffer cur)).length = 3 := lastN_length hlen
      obtain ⟨a, b, c, habc⟩ := List.length_eq_three.mp h3
      have hall := stableOf_eq_some (habc ▸ h')
      rw [habc, hall a (by simp), hall b (by simp), hall c (by simp)]
    · exact absurd h' (by simp)
  · intro buffer cur g h
    have h' : (if (dwBuffer buffer cur).length ≥ 2 then
        stableOf (lastN 2 (dwBuffer buffer cur)) else none) = some g := h
    show lastN 2 (dwBuffer buffer cur) = [some g, some g]
    split at h'
    · next hlen =>
      have h2 : (lastN 2 (dwBuffer buffer cur)).length = 2 := lastN_length hlen
      obtain ⟨a, b, hab⟩ := List.length_eq_two.mp h2
      have hall := stableOf_eq_some (hab ▸ h')
      rw [hab, hall a (by simp), hall b (by simp)]
    · exact absurd h' (by simp)

/-- Witness for C6: both smoothing checks confirming on concrete buffers whose
trailing windows are uniformly thumbs-up resp. reset. -/
theorem debounce_stable_window_witness :
    (qgtStep [some QSym.thumbsUp, some QSym.thumbsUp] (some QSym.thumbsUp)).2 =
      some QSym.thumbsUp ∧
    lastN 3 (qgtStep [some QSym.thumbsUp, some QSym.thumbsUp] (some QSym.thumbsUp)).1 =
      [some QSym.thumbsUp, some QSym.thumbsUp, some QSym.thumbsUp] ∧
    (detect_gestures [some GestureDW.reset] (some GestureDW.reset)).2 =
      some GestureDW.reset ∧
    lastN 2 (detect_gestures [some GestureDW.reset] (some GestureDW.reset)).1 =
      [some GestureDW.reset, some GestureDW.reset] :=
  ⟨by decide, debounce_stable_window.1 _ _ _ (by decide),
   by decide, debounce_stable_window.2 _ _ _ (by decide)⟩

/-- C6 counterexample: quick_gesture_test.py confirms thumbs-down at time 5
while its buffer still holds a thumbs-up entry from the first frame, so the
claim that all buffer entries are equal and the window spans the full buffer
capacity 5 is false at the moment of confirmation. -/
theorem qgt_fire_without_full_window :
    qgtEvents qgtInit
      [(2, some QSym.thumbsUp), (3, some QSym.thumbsDown), (4, some QSym.thumbsDown),
       (5, some QSym.thumbsDown)] = [(5, QSym.thumbsDown)] ∧
    (qgtFinal qgtInit
      [(2, some QSym.thumbsUp), (3, some QSym.thumbsDown), (4, some QSym.thumbsDown),
       (5, some QSym.thumbsDown)]).buffer =
      [some QSym.thumbsUp, some QSym.thumbsDown, some QSym.thumbsDown,
       some QSym.thumbsDown] ∧
    some QSym.thumbsUp ≠ some QSym.thumbsDown ∧
    (qgtFinal qgtInit
      [(2, some QSym.thumbsUp), (3, some QSym.thumbsDown), (4, some QSym.thumbsDown),
       (5, some QSym.thumbsDown)]).buffer.length ≠ 5 := by
  have h1 : qgtFrame qgtInit 2 (some QSym.thumbsUp) =
      (⟨[some QSym.thumbsUp], 0, 1⟩, none) := qgtFrame_nofire_eval rfl
  have h2 : qgtFrame ⟨[some QSym.thumbsUp], 0, 1⟩ 3 (some QSym.thumbsDown) =
      (⟨[some QSym.thumbsUp, some QSym.thumbsDown], 0, 1⟩, none) :=
    qgtFrame_nofire_eval rfl
  have h3 : qgtFrame ⟨[some QSym.thumbsUp, some QSym.thumbsDown], 0, 1⟩ 4
      (some QSym.thumbsDown) =
      (⟨[some QSym.thumbsUp, some QSym.thumbsDown, some QSym.thumbsDown], 0, 1⟩, none) :=
    qgtFrame_nofire_eval rfl
  have h4 : qgtFrame ⟨[some QSym.thumbsUp, some QSym.thumbsDown, some QSym.thumbsDown],
      0, 1⟩ 5 (some QSym.thumbsDown) =
      (⟨[some QSym.thumbsUp, some QSym.thumbsDown, some QSym.thumbsDown,
         some QSym.thumbsDown], 5, max (1/5) (1 - 1/5)⟩, some (5, QSym.thumbsDown)) :=
    qgtFrame_fire_down_eval rfl (by norm_num)
  have hbuf : (qgtFinal qgtInit
      [(2, some QSym.thumbsUp), (3, some QSym.thumbsDown), (4, some QSym.thumbsDown),
       (5, some QSym.thumbsDown)]).buffer =
      [some QSym.thumbsUp, some QSym.thumbsDown, some QSym.thumbsDown,
       some QSym.thumbsDown] := by
    rw [qgtFinal_cons h1, qgtFinal_cons h2, qgtFinal_cons h3, qgtFinal_cons h4]
    rfl
  refine ⟨?_, hbuf, by decide, ?_⟩
  · rw [qgtEvents_cons_nofire h1, qgtEvents_cons_nofire h2, qgtEvents_cons_nofire h3,
      qgtEvents_cons_fire h4]
    rfl
  · rw [hbuf]
    decide
